import Mathlib

/-!
# Verification of the voice-agent segmentation, dialogue and error-handling core

A shallow embedding, in Lean 4, of the session-state logic of the
voice-agent variants in this repository (`agent_working.py`,
`agent_whisper_api.py`, `agent_whisper_local.py`,
`voice-agent/agent_working.py`):

* the bounded conversation history mutated by `respond` (append the user
  turn, truncate to the most recent 20, call the LLM, append the assistant
  turn on success or pop the trailing user turn on failure);
* the VAD event loop `process_vad` (segment buffer + `is_speaking` flag);
* the utterance processor (`frames_to_wav` / `transcribe_audio`:
  concatenation, decimation to 16 kHz, the 0.5 s minimum-duration guard)
  and the transcript gates of `transcribe_and_respond` / `process_stt`;
* the Whisper-API error paths of `transcribe_whisper_api`;
* the startup sequencing of `voice-agent/agent_working.py::entrypoint`
  (background model load with a 120 s bounded readiness wait).

Python strings are modelled as `List Char` (so that `str.strip` is an
executable function of the embedding), Python lists as Lean lists, and
each external backend call as an explicit outcome value.  Effects that do
not touch the state a theorem speaks about (logging, TTS audio delivery)
are not modelled; the comments on each definition say exactly which lines
of which file it embeds.
-/

namespace VoiceAgent

/-- Python `str` as a list of characters, so that `str.strip` and
`len` are kernel-computable functions of the embedding. -/
abbrev Text := List Char

/-- Python `str.strip()`: drop whitespace from both ends.  (`String.trim`
in core is defined by well-founded recursion on byte positions and does
not reduce in the kernel, so the embedding strips a character list.) -/
def strip (t : Text) : Text :=
  ((t.dropWhile Char.isWhitespace).reverse.dropWhile Char.isWhitespace).reverse

/-- A conversation role: `"user"` or `"assistant"` in the Python dicts
`{"role": ..., "content": ...}` appended by `respond`. -/
inductive Role
  | user
  | assistant
deriving DecidableEq

/-- One entry of the conversation history: `{"role": r, "content": c}`. -/
structure Msg where
  role : Role
  content : Text
deriving DecidableEq

/-- `messages` — the ConversationHistory list, oldest entry first,
appended at the right end as Python `list.append` does. -/
abbrev History := List Msg

/-- The history cap: the literal `20` in `if len(messages) > 20:` of every
`respond` variant. -/
def HISTORY_CAP : Nat := 20

/-- `if len(messages) > 20: messages[:] = messages[-20:]`
(agent_working.py:238-239, agent_whisper_api.py:307-308,
agent_whisper_local.py:314-315): when the length exceeds the cap, keep
only the last `HISTORY_CAP` entries. -/
def truncateHist (l : History) : History :=
  if HISTORY_CAP < l.length then l.drop (l.length - HISTORY_CAP) else l

/-- The outcome of the blocking LLM call `client.messages.create(...)`:
either a reply text or an exception caught by the surrounding
`try`/`except`. -/
inductive LLMOutcome
  | success (reply : Text)
  | failure
deriving DecidableEq

/-- `messages.append({"role": "user", "content": user_text})` followed by
the cap truncation (agent_working.py:235-239): the history the LLM call
is then made with. -/
def appendUserTurn (l : History) (t : Text) : History :=
  truncateHist (l ++ [⟨Role.user, t⟩])

/-- The failure rollback of every `respond` variant
(agent_working.py:260-261, agent_whisper_api.py:324-325):
`if messages and messages[-1]["role"] == "user": messages.pop()`. -/
def rollbackUser (l : History) : History :=
  match l.getLast? with
  | some m => if m.role = Role.user then l.dropLast else l
  | none => l

/-- Whether the last history entry is a user turn — the condition of the
rollback guard `messages and messages[-1]["role"] == "user"`. -/
def endsWithUser (l : History) : Bool :=
  match l.getLast? with
  | some m => decide (m.role = Role.user)
  | none => false

/-- The history effect of one `respond(user_text, ...)` call
(agent_working.py:227-261 and its twins in the Whisper variants):
append the user turn, truncate to the cap, then on LLM success append the
assistant turn, on LLM failure pop a trailing user turn.  The TTS
cancellation at entry and the `speak` call at the end do not touch
`messages` and are not modelled here. -/
def respondHist (l : History) (userText : Text) (llm : LLMOutcome) : History :=
  let l1 := appendUserTurn l userText
  match llm with
  | .success reply => l1 ++ [⟨Role.assistant, reply⟩]
  | .failure => rollbackUser l1

/-- `n` consecutive successful dialogue turns starting from the empty
session history (the `messages = []` of `entrypoint`), with fixed turn
texts — a concrete execution used to evaluate the history invariant. -/
def runSuccessTurns : Nat → History
  | 0 => []
  | n + 1 => respondHist (runSuccessTurns n) ['u'] (.success ['a'])

/-- A concrete history of exactly 20 entries, alternating user/assistant
and ending with an assistant turn — the history reached after 10
successful turns, sitting exactly at the cap. -/
def hist20 : History :=
  (List.replicate 10 [Msg.mk Role.user ['u'], Msg.mk Role.assistant ['a']]).flatten

/-- An audio frame: `frame.data` is int16 PCM, read via
`np.frombuffer(frame.data, dtype=np.int16)`.  The embedding keeps the
samples as integers (the local variant additionally divides by 32768.0,
which changes no sample count and no length-based decision). -/
structure AudioFrame where
  data : List Int
deriving DecidableEq

/-- The shared state of `handle_audio_track`: the `speech_frames` buffer
and the `is_speaking` flag (SpeechState Speaking ↔ `is_speaking = true`).
(agent_whisper_api.py:205-206, agent_whisper_local.py:213-214,
voice-agent/agent_working.py:259-260.) -/
structure VadState where
  speechFrames : List AudioFrame
  isSpeaking : Bool
deriving DecidableEq

/-- The two Silero VAD event tags consumed by `process_vad`. -/
inductive VADEventType
  | startOfSpeech
  | endOfSpeech
deriving DecidableEq

/-- One iteration of the `async for event in vad_stream` body of
`process_vad` (agent_whisper_api.py:209-236, agent_whisper_local.py:217-245,
voice-agent/agent_working.py:263-290): returns the new state and the
segment handed to `transcribe_and_respond` as a new task, if any.
`START_OF_SPEECH`: `is_speaking = True; speech_frames = []` (the TTS
barge-in cancel touches no segment state).  `END_OF_SPEECH`:
`if is_speaking and speech_frames:` copy the buffer out, clear it and
spawn the handoff task; then `is_speaking = False` unconditionally. -/
def processVadEvent (s : VadState) (e : VADEventType) :
    VadState × Option (List AudioFrame) :=
  match e with
  | .startOfSpeech => ({ speechFrames := [], isSpeaking := true }, none)
  | .endOfSpeech =>
      if s.isSpeaking && !s.speechFrames.isEmpty then
        ({ speechFrames := [], isSpeaking := false }, some s.speechFrames)
      else
        ({ s with isSpeaking := false }, none)

/-- The `process_vad` loop run over a whole event sequence, collecting the
handed-off segments in order. -/
def processVadEvents (s : VadState) (es : List VADEventType) :
    VadState × List (List AudioFrame) :=
  es.foldl
    (fun acc e =>
      let r := processVadEvent acc.1 e
      (r.1, acc.2 ++ r.2.toList))
    (s, [])

/-- `target_rate = 16000` (agent_whisper_api.py:77) /
`WHISPER_SAMPLE_RATE = 16000`. -/
def TARGET_RATE : Nat := 16000

/-- `SAMPLE_RATE = 48000`, the LiveKit WebRTC default rate of the incoming
frames. -/
def SAMPLE_RATE : Nat := 48000

/-- `np.concatenate(all_samples)`: all frame samples joined in frame
order. -/
def concatSamples (frames : List AudioFrame) : List Int :=
  (frames.map AudioFrame.data).flatten

/-- The nearest-index decimation from 48 kHz to 16 kHz
(agent_whisper_api.py:78-82 and its twins):
`ratio = sample_rate / target_rate` is exactly `3.0` for the default
rates, `indices = np.arange(0, len(audio_data), ratio).astype(int)` is
then `0, 3, 6, ...` below the length, and `audio_data[indices]` keeps
every third sample. -/
def resampleBy3 : List Int → List Int
  | [] => []
  | [a] => [a]
  | [a, _] => [a]
  | a :: _ :: _ :: rest => a :: resampleBy3 rest

/-- The in-memory WAV payload `frames_to_wav` builds: mono 16-bit at the
target rate.  The RIFF byte encoding done by the `wave` module is outside
the decisions any claim is about and is not modelled. -/
structure WavData where
  sampleRate : Nat
  samples : List Int
deriving DecidableEq

/-- `frames_to_wav` (agent_whisper_api.py:64-99): `None` when there are no
frames, resample to 16 kHz, `None` when
`duration = len(audio_data) / sample_rate < MIN_SPEECH_DURATION` — with
`MIN_SPEECH_DURATION = 0.5` this float test is exactly
`2 * len(audio_data) < 16000` (both sides are exactly representable) —
otherwise the WAV payload. -/
def frames_to_wav (audio_frames : List AudioFrame) : Option WavData :=
  if audio_frames = [] then none
  else
    let audio_data := resampleBy3 (concatSamples audio_frames)
    if 2 * audio_data.length < TARGET_RATE then none
    else some ⟨TARGET_RATE, audio_data⟩

/-- What the Whisper HTTP POST can come back with inside the `try` of
`transcribe_whisper_api`: a response with a status code and the parsed
`text`/`language` fields, or a raised exception. -/
inductive ApiResponse
  | httpResponse (status : Nat) (text : Text) (language : Text)
  | exn
deriving DecidableEq

/-- `transcribe_whisper_api` (agent_whisper_api.py:102-139) as a function
of the `OPENAI_API_KEY` environment value and the backend outcome:
no key → `("", "")`; any raised exception → `("", "")`;
`status_code != 200` → `("", "")`; otherwise
`(result.get("text", "").strip(), result.get("language", "unknown"))`. -/
def transcribe_whisper_api (apiKey : Option Text) (resp : ApiResponse) :
    Text × Text :=
  match apiKey with
  | none => ([], [])
  | some _ =>
      match resp with
      | .exn => ([], [])
      | .httpResponse status text language =>
          if status ≠ 200 then ([], []) else (strip text, language)

/-- The transcript gate and dialogue call at the tail of
`transcribe_and_respond` (agent_whisper_api.py:271-276):
`if not text or len(text.strip()) < 2: return` else `respond(text, ...)`.
Returns the resulting history and whether the Dialogue Manager ran. -/
def handleTranscript (text : Text) (llm : LLMOutcome) (h : History) :
    History × Bool :=
  if text = [] ∨ (strip text).length < 2 then (h, false)
  else (respondHist h text llm, true)

/-- The observable outcome of one `transcribe_and_respond` task: the
history it leaves, whether the transcription backend was invoked, and
whether the Dialogue Manager (`respond`) was invoked. -/
structure TurnResult where
  messages : History
  backendCalled : Bool
  dialogueInvoked : Bool
deriving DecidableEq

/-- `transcribe_and_respond` (agent_whisper_api.py:258-279): build the WAV
(`None` → return with nothing called), invoke the Whisper API backend,
then gate the transcript into `respond`.  Its whole body runs under
`try`/`except`, so as a history transformer it is total. -/
def transcribe_and_respond (frames : List AudioFrame) (apiKey : Option Text)
    (resp : ApiResponse) (llm : LLMOutcome) (h : History) : TurnResult :=
  match frames_to_wav frames with
  | none => ⟨h, false, false⟩
  | some _ =>
      let t := transcribe_whisper_api apiKey resp
      let r := handleTranscript t.1 llm h
      ⟨r.1, true, r.2⟩

/-- `transcribe_audio` of the local variant (agent_whisper_local.py:87-141):
no frames → `("", "")` with no backend call; resample to 16 kHz; duration
below `MIN_SPEECH_DURATION` → `("", "")` with no backend call; otherwise
`model.transcribe` runs and `(full_text.strip(), detected_language)` is
returned.  The backend outcome is passed in as the collected text and
detected language; the returned flag records whether it was invoked. -/
def transcribe_audio_local (frames : List AudioFrame)
    (backendText backendLang : Text) : (Text × Text) × Bool :=
  if frames = [] then (([], []), false)
  else
    let audio := resampleBy3 (concatSamples frames)
    if 2 * audio.length < TARGET_RATE then (([], []), false)
    else ((strip backendText, backendLang), true)

/-- The final-transcript gate of `process_stt` in agent_working.py:147-169:
`text = event.alternatives[0].text.strip()`; `if not text: continue`;
then only `if event.is_final and len(text) > 2` is `respond` spawned.
Returns whether the transcript is forwarded to the Dialogue Manager. -/
def process_stt_forwards (rawText : Text) (isFinal : Bool) : Bool :=
  let text := strip rawText
  if text = [] then false
  else if isFinal then decide (2 < text.length) else false

/-- Whether the inputs to `transcribe_whisper_api` constitute a backend
failure: missing `OPENAI_API_KEY`, a raised exception, or a non-200 HTTP
status. -/
def IsBackendFailure (apiKey : Option Text) (resp : ApiResponse) : Prop :=
  apiKey = none ∨ resp = ApiResponse.exn ∨
    ∃ status text lang,
      resp = ApiResponse.httpResponse status text lang ∧ status ≠ 200

/-- The externally visible steps of
`voice-agent/agent_working.py::entrypoint` (lines 165-244), in program
order. -/
inductive Action
  | connect
  | loadWhisperBackground
  | waitParticipant
  | loadVad
  | makeTts
  | publishTrack
  | speakText (t : String)
  | waitReady (timeoutSecs : Nat)
  | startTrackHandlers
  | waitForever
  | returnEarly
deriving DecidableEq

/-- Whether `asyncio.wait_for(whisper_ready.wait(), timeout=120.0)`
returned normally or raised `asyncio.TimeoutError`. -/
inductive ReadyOutcome
  | readyWithin
  | timedOut
deriving DecidableEq

/-- The straight-line action trace of
`voice-agent/agent_working.py::entrypoint` as a function of the readiness
outcome: connect, start the background Whisper load, greet, wait on
`whisper_ready` with the 120 s bound; on timeout speak the spoken failure
notice and return (no track handler is ever registered); on success speak
the ready notice, register the track handlers and park on
`asyncio.Event().wait()`. -/
def entrypointActions (r : ReadyOutcome) : List Action :=
  [Action.connect, Action.loadWhisperBackground, Action.waitParticipant,
   Action.loadVad, Action.makeTts, Action.publishTrack,
   Action.speakText "Ciao! Ci sono. Un momento che mi preparo ad ascoltarti.",
   Action.waitReady 120] ++
  (match r with
   | .readyWithin =>
       [Action.speakText "Perfetto, sono pronto. Parla pure in qualsiasi lingua.",
        Action.startTrackHandlers, Action.waitForever]
   | .timedOut =>
       [Action.speakText "Scusa, ho un problema tecnico. Riprova tra poco.",
        Action.returnEarly])

/-! ## Helper lemmas -/

theorem truncateHist_of_le (l : History) (h : l.length ≤ HISTORY_CAP) :
    truncateHist l = l := by
  unfold truncateHist
  rw [if_neg (by omega)]

theorem truncateHist_length (l : History) :
    (truncateHist l).length = min l.length HISTORY_CAP := by
  unfold truncateHist
  split <;> simp [List.length_drop] <;> omega

theorem truncateHist_suffix (l : History) : truncateHist l <:+ l := by
  unfold truncateHist
  split
  · exact List.drop_suffix _ _
  · exact List.suffix_refl l

theorem rollbackUser_concat_user (l : History) (t : Text) :
    rollbackUser (l ++ [⟨Role.user, t⟩]) = l := by
  simp [rollbackUser, List.getLast?_concat, List.dropLast_concat]

theorem rollbackUser_length_le (l : History) :
    (rollbackUser l).length ≤ l.length := by
  unfold rollbackUser
  split
  · split
    · rw [List.length_dropLast]
      omega
    · exact Nat.le_refl _
  · exact Nat.le_refl _

theorem appendUserTurn_length (l : History) (t : Text) :
    (appendUserTurn l t).length = min (l.length + 1) HISTORY_CAP := by
  unfold appendUserTurn
  rw [truncateHist_length]
  simp

/-! ## Claims -/

/-- Claim C1 (corrected).  The claim says the history after an LLM-backend
failure in `respond` always equals the history before the call, for every
pre-call history including one already at the 20-entry cap.  That fails at
the cap (see `c1_counterexample`): the user-turn append pushes the length
to 21, the truncation drops the oldest entry, and the failure rollback
then pops only the user turn, leaving the last 19 pre-call entries.
Amended: for a pre-call history within the cap, an LLM failure leaves the
history exactly as it was when the pre-call length is below the cap, and
leaves the pre-call history minus its oldest entry when the pre-call
length is exactly the cap; in both cases a history that did not end with
an unmatched user turn still does not. -/
theorem c1_llm_failure_rollback (l : History) (t : Text)
    (hc : l.length ≤ HISTORY_CAP) :
    respondHist l t LLMOutcome.failure =
      (if l.length = HISTORY_CAP then l.drop 1 else l) ∧
    (endsWithUser l = false →
      endsWithUser (respondHist l t LLMOutcome.failure) = false) := by
  have hmain : respondHist l t LLMOutcome.failure =
      (if l.length = HISTORY_CAP then l.drop 1 else l) := by
    by_cases hcap : l.length = HISTORY_CAP
    · rw [if_pos hcap]
      show rollbackUser (appendUserTurn l t) = l.drop 1
      cases l with
      | nil => simp [HISTORY_CAP] at hcap
      | cons a l2 =>
          have h19 : l2.length = 19 := by
            simp [HISTORY_CAP] at hcap
            omega
          have htr : appendUserTurn (a :: l2) t = l2 ++ [⟨Role.user, t⟩] := by
            unfold appendUserTurn truncateHist
            rw [if_pos (by simp [h19, HISTORY_CAP])]
            simp [h19, HISTORY_CAP]
          rw [htr, rollbackUser_concat_user]
          rfl
    · rw [if_neg hcap]
      have hle : ((l ++ [⟨Role.user, t⟩] : History)).length ≤ HISTORY_CAP := by
        simp only [List.length_append, List.length_singleton]
        simp [HISTORY_CAP] at hc hcap ⊢
        omega
      show rollbackUser (appendUserTurn l t) = l
      rw [appendUserTurn, truncateHist_of_le _ hle, rollbackUser_concat_user]
  refine ⟨hmain, fun hu => ?_⟩
  rw [hmain]
  by_cases hcap : l.length = HISTORY_CAP
  · rw [if_pos hcap]
    cases l with
    | nil => simp [HISTORY_CAP] at hcap
    | cons a l2 =>
        cases l2 with
        | nil => simp [HISTORY_CAP] at hcap
        | cons b rest =>
            have hsame : endsWithUser (a :: b :: rest) = endsWithUser (b :: rest) := by
              unfold endsWithUser
              rw [List.getLast?_cons_cons]
            show endsWithUser (b :: rest) = false
            rw [← hsame]
            exact hu
  · rw [if_neg hcap]
    exact hu

/-- Witness for C1's amended theorem: the concrete at-cap history
`hist20`, where the failed call leaves the last 19 entries. -/
theorem c1_llm_failure_rollback_witness :
    hist20.length ≤ HISTORY_CAP ∧
    (respondHist hist20 ['x'] LLMOutcome.failure =
        (if hist20.length = HISTORY_CAP then hist20.drop 1 else hist20) ∧
      (endsWithUser hist20 = false →
        endsWithUser (respondHist hist20 ['x'] LLMOutcome.failure) = false)) :=
  ⟨by decide, c1_llm_failure_rollback hist20 ['x'] (by decide)⟩

/-- Counterexample to C1 as stated: on the concrete 20-entry (at-cap)
history `hist20`, an LLM failure leaves 19 entries, not the pre-call
state. -/
theorem c1_counterexample :
    hist20.length = 20 ∧
    (respondHist hist20 ['x'] LLMOutcome.failure).length = 19 ∧
    respondHist hist20 ['x'] LLMOutcome.failure ≠ hist20 := by
  decide

/-- Claim C2 (corrected).  The claim says every operation keeps the stored
history at length ≤ 20, in particular after every successful turn.  That
fails: `respond` truncates after the user-turn append but then appends the
assistant turn without re-truncating, so the 11th successful turn from an
empty session leaves 21 stored entries (see `c2_counterexample`).
Amended: every `respond` call preserves the invariant length ≤ 21
(cap + 1); the history the LLM backend is actually called with
(`appendUserTurn`) always has length ≤ 20 and exactly 20 once the
pre-call history has reached the cap; and truncation, whenever it runs,
keeps a suffix — the most recent entries in their original relative
order. -/
theorem c2_history_bound (l : History) (t : Text) (o : LLMOutcome)
    (hc : l.length ≤ HISTORY_CAP + 1) :
    (respondHist l t o).length ≤ HISTORY_CAP + 1 ∧
    (appendUserTurn l t).length ≤ HISTORY_CAP ∧
    truncateHist (l ++ [⟨Role.user, t⟩]) <:+ l ++ [⟨Role.user, t⟩] ∧
    (HISTORY_CAP ≤ l.length → (appendUserTurn l t).length = HISTORY_CAP) := by
  refine ⟨?_, ?_, truncateHist_suffix _, fun h20 => ?_⟩
  · cases o with
    | success r =>
        show ((appendUserTurn l t) ++ [Msg.mk Role.assistant r]).length ≤ HISTORY_CAP + 1
        rw [List.length_append, appendUserTurn_length]
        simp
    | failure =>
        show (rollbackUser (appendUserTurn l t)).length ≤ HISTORY_CAP + 1
        have h1 := rollbackUser_length_le (appendUserTurn l t)
        rw [appendUserTurn_length] at h1
        omega
  · rw [appendUserTurn_length]
    exact Nat.min_le_right _ _
  · rw [appendUserTurn_length]
    omega

/-- Witness for C2's amended theorem at the concrete at-cap history
`hist20`. -/
theorem c2_history_bound_witness :
    hist20.length ≤ HISTORY_CAP + 1 ∧
    ((respondHist hist20 ['x'] LLMOutcome.failure).length ≤ HISTORY_CAP + 1 ∧
      (appendUserTurn hist20 ['x']).length ≤ HISTORY_CAP ∧
      truncateHist (hist20 ++ [⟨Role.user, ['x']⟩]) <:+
        hist20 ++ [⟨Role.user, ['x']⟩] ∧
      (HISTORY_CAP ≤ hist20.length →
        (appendUserTurn hist20 ['x']).length = HISTORY_CAP)) :=
  ⟨by decide, c2_history_bound hist20 ['x'] LLMOutcome.failure (by decide)⟩

/-- Counterexample to C2 as stated: after 11 consecutive successful turns
from the empty session history, the stored history has 21 entries,
violating the claimed ≤ 20 bound. -/
theorem c2_counterexample :
    (runSuccessTurns 11).length = 21 ∧
    ¬ (runSuccessTurns 11).length ≤ HISTORY_CAP := by
  decide

/-- Claim C4 (confirmed).  For every prior state (Speaking or Idle,
buffer empty or not) and after any sequence of VAD events, processing a
`StartOfSpeech` event sets the segment buffer to empty and the speaking
flag to true — in particular two consecutive `StartOfSpeech` events are
tolerated, each one resetting the state the same way. -/
theorem c4_start_resets (s : VadState) (es : List VADEventType) :
    (processVadEvent s VADEventType.startOfSpeech).1 =
      { speechFrames := [], isSpeaking := true } ∧
    (processVadEvents s (es ++ [VADEventType.startOfSpeech])).1 =
      { speechFrames := [], isSpeaking := true } := by
  refine ⟨rfl, ?_⟩
  simp [processVadEvents, List.foldl_append, processVadEvent]

/-- Claim C5 (confirmed).  An `EndOfSpeech` event hands off a segment
exactly when the state is Speaking with a non-empty buffer; in that case
the handed-off segment is the whole buffer and the buffer is swapped for
an empty one; in every case the state becomes Idle; and a second
`EndOfSpeech` immediately after any `EndOfSpeech` hands off nothing, so at
most one handoff task is created per speech turn. -/
theorem c5_end_handoff (s : VadState) :
    (processVadEvent s VADEventType.endOfSpeech).1.isSpeaking = false ∧
    (processVadEvent s VADEventType.endOfSpeech).2 =
      (if s.isSpeaking = true ∧ s.speechFrames ≠ []
        then some s.speechFrames else none) ∧
    (processVadEvent s VADEventType.endOfSpeech).1.speechFrames =
      (if s.isSpeaking = true ∧ s.speechFrames ≠ []
        then [] else s.speechFrames) ∧
    (processVadEvent (processVadEvent s VADEventType.endOfSpeech).1
        VADEventType.endOfSpeech).2 = none := by
  obtain ⟨fr, sp⟩ := s
  cases sp <;> cases fr <;> simp [processVadEvent]

/-- Claim C6 (confirmed).  Whenever the resampled audio of a completed
segment is shorter than the 0.5 s minimum (fewer than 8000 samples at
16 kHz, i.e. `2 * length < 16000`), `frames_to_wav` returns no result,
`transcribe_and_respond` invokes neither the transcription backend nor the
Dialogue Manager and leaves the history unchanged, and the local-variant
`transcribe_audio` likewise returns empty text without invoking its
backend. -/
theorem c6_short_segment_discarded (frames : List AudioFrame)
    (apiKey : Option Text) (resp : ApiResponse) (llm : LLMOutcome)
    (h : History) (bt bl : Text)
    (hshort : 2 * (resampleBy3 (concatSamples frames)).length < TARGET_RATE) :
    frames_to_wav frames = none ∧
    (transcribe_and_respond frames apiKey resp llm h).backendCalled = false ∧
    (transcribe_and_respond frames apiKey resp llm h).messages = h ∧
    (transcribe_and_respond frames apiKey resp llm h).dialogueInvoked = false ∧
    transcribe_audio_local frames bt bl = (([], []), false) := by
  have hwav : frames_to_wav frames = none := by
    by_cases he : frames = []
    · simp [frames_to_wav, he]
    · simp [frames_to_wav, he, hshort]
  have hlocal : transcribe_audio_local frames bt bl = (([], []), false) := by
    by_cases he : frames = []
    · simp [transcribe_audio_local, he]
    · simp [transcribe_audio_local, he, hshort]
  refine ⟨hwav, ?_, ?_, ?_, hlocal⟩ <;> simp [transcribe_and_respond, hwav]

/-- Witness for C6 at a concrete 6-sample (far below 0.5 s) segment. -/
theorem c6_short_segment_discarded_witness :
    2 * (resampleBy3 (concatSamples [AudioFrame.mk (List.replicate 6 0)])).length
        < TARGET_RATE ∧
    (frames_to_wav [AudioFrame.mk (List.replicate 6 0)] = none ∧
      (transcribe_and_respond [AudioFrame.mk (List.replicate 6 0)] none
          ApiResponse.exn LLMOutcome.failure []).backendCalled = false ∧
      (transcribe_and_respond [AudioFrame.mk (List.replicate 6 0)] none
          ApiResponse.exn LLMOutcome.failure []).messages = [] ∧
      (transcribe_and_respond [AudioFrame.mk (List.replicate 6 0)] none
          ApiResponse.exn LLMOutcome.failure []).dialogueInvoked = false ∧
      transcribe_audio_local [AudioFrame.mk (List.replicate 6 0)] [] [] =
        (([], []), false)) :=
  ⟨by decide,
    c6_short_segment_discarded [AudioFrame.mk (List.replicate 6 0)] none
      ApiResponse.exn LLMOutcome.failure [] [] [] (by decide)⟩

/-- Claim C7 (corrected).  The claim says every trimmed transcript of
length ≥ 2 is forwarded to the Dialogue Manager.  That is the behaviour of
the Whisper variants (`transcribe_and_respond` forwards exactly when the
trimmed length is ≥ 2, leaving the history untouched otherwise), but the
Deepgram variant (`process_stt` in agent_working.py) forwards a final
transcript only when its trimmed length is strictly greater than 2, so a
length-2 transcript such as `"ok"` is silently discarded there (see
`c7_counterexample`).  Amended: transcripts that are empty or of trimmed
length < 2 are always discarded with the history unchanged; trimmed
transcripts of length ≥ 2 are forwarded by the Whisper variants, while the
Deepgram variant requires trimmed length > 2. -/
theorem c7_transcript_gate (text raw : Text) (isFinal : Bool)
    (llm : LLMOutcome) (h : History) (ht : strip text = text) :
    ((handleTranscript text llm h).2 = decide (2 ≤ text.length)) ∧
    ((handleTranscript text llm h).1 =
      (if 2 ≤ text.length then respondHist h text llm else h)) ∧
    (process_stt_forwards raw isFinal = true ↔
      (strip raw ≠ [] ∧ isFinal = true ∧ 2 < (strip raw).length)) := by
  have hgate : (text = [] ∨ (strip text).length < 2) ↔ text.length < 2 := by
    rw [ht]
    constructor
    · rintro (rfl | hl)
      · simp
      · exact hl
    · exact fun hl => Or.inr hl
  refine ⟨?_, ?_, ?_⟩
  · unfold handleTranscript
    by_cases h2 : 2 ≤ text.length
    · rw [if_neg (by rw [hgate]; omega)]
      simp [h2]
    · rw [if_pos (by rw [hgate]; omega)]
      simp
      omega
  · unfold handleTranscript
    by_cases h2 : 2 ≤ text.length
    · rw [if_neg (by rw [hgate]; omega), if_pos h2]
    · rw [if_pos (by rw [hgate]; omega), if_neg h2]
  · unfold process_stt_forwards
    by_cases he : strip raw = []
    · simp [he]
    · cases isFinal <;> simp [he]

/-- Witness for C7's amended theorem at the concrete trimmed length-2
transcript. -/
theorem c7_transcript_gate_witness :
    strip ['o', 'k'] = ['o', 'k'] ∧
    (((handleTranscript ['o', 'k'] (LLMOutcome.success ['h', 'i']) []).2 =
        decide (2 ≤ (['o', 'k'] : Text).length)) ∧
      ((handleTranscript ['o', 'k'] (LLMOutcome.success ['h', 'i']) []).1 =
        (if 2 ≤ (['o', 'k'] : Text).length
          then respondHist [] ['o', 'k'] (LLMOutcome.success ['h', 'i'])
          else [])) ∧
      (process_stt_forwards ['o', 'k'] true = true ↔
        (strip ['o', 'k'] ≠ [] ∧ true = true ∧ 2 < (strip ['o', 'k']).length))) :=
  ⟨by decide,
    c7_transcript_gate ['o', 'k'] ['o', 'k'] true (LLMOutcome.success ['h', 'i'])
      [] (by decide)⟩

/-- Counterexample to C7 as stated: the trimmed length-2 transcript
`"ok"` is forwarded by the Whisper variants but NOT forwarded by the
Deepgram variant's final-transcript gate, contradicting the claim that
every trimmed transcript of length ≥ 2 reaches the Dialogue Manager. -/
theorem c7_counterexample :
    strip ['o', 'k'] = ['o', 'k'] ∧
    (strip ['o', 'k']).length = 2 ∧
    process_stt_forwards ['o', 'k'] true = false ∧
    (handleTranscript ['o', 'k'] (LLMOutcome.success ['h', 'i']) []).2 = true := by
  decide

/-- Claim C8 (confirmed).  Every transcription-backend failure — missing
API key, non-200 HTTP status, or a raised exception — makes
`transcribe_whisper_api` return the empty (text, language) pair rather
than propagate the error, and the surrounding `transcribe_and_respond`
then abandons the turn with the history unchanged and the Dialogue
Manager not invoked; since the whole body is guarded by `try`/`except`,
the embedding is a total function and no failure escapes the calling
event loop. -/
theorem c8_backend_failure_safe (apiKey : Option Text) (resp : ApiResponse)
    (frames : List AudioFrame) (llm : LLMOutcome) (h : History)
    (hf : IsBackendFailure apiKey resp) :
    transcribe_whisper_api apiKey resp = ([], []) ∧
    (transcribe_and_respond frames apiKey resp llm h).messages = h ∧
    (transcribe_and_respond frames apiKey resp llm h).dialogueInvoked = false := by
  have hT : transcribe_whisper_api apiKey resp = ([], []) := by
    rcases hf with rfl | rfl | ⟨st, tx, lg, rfl, hs⟩
    · rfl
    · cases apiKey <;> rfl
    · cases apiKey with
      | none => rfl
      | some k => simp [transcribe_whisper_api, hs]
  refine ⟨hT, ?_, ?_⟩ <;>
    cases hw : frames_to_wav frames <;>
      simp [transcribe_and_respond, hw, hT, handleTranscript]

/-- Witness for C8 at a concrete failure: no API key and a raised
exception. -/
theorem c8_backend_failure_safe_witness :
    IsBackendFailure none ApiResponse.exn ∧
    (transcribe_whisper_api none ApiResponse.exn = ([], []) ∧
      (transcribe_and_respond [] none ApiResponse.exn
          LLMOutcome.failure []).messages = [] ∧
      (transcribe_and_respond [] none ApiResponse.exn
          LLMOutcome.failure []).dialogueInvoked = false) :=
  ⟨Or.inl rfl,
    c8_backend_failure_safe none ApiResponse.exn [] LLMOutcome.failure []
      (Or.inl rfl)⟩

/-- Claim C9 (confirmed).  The `voice-agent` entrypoint waits on the
background model load with the bounded 120 s timeout in both outcomes; on
timeout it speaks the user-facing failure notice and returns early — it
never parks forever and never registers an audio-track handler — and
audio-track handling happens only in the ready outcome, strictly after the
bounded wait on the ready signal. -/
theorem c9_ready_wait_bounded :
    Action.waitReady 120 ∈ entrypointActions ReadyOutcome.readyWithin ∧
    Action.waitReady 120 ∈ entrypointActions ReadyOutcome.timedOut ∧
    Action.speakText "Scusa, ho un problema tecnico. Riprova tra poco." ∈
      entrypointActions ReadyOutcome.timedOut ∧
    Action.returnEarly ∈ entrypointActions ReadyOutcome.timedOut ∧
    Action.startTrackHandlers ∉ entrypointActions ReadyOutcome.timedOut ∧
    Action.waitForever ∉ entrypointActions ReadyOutcome.timedOut ∧
    Action.startTrackHandlers ∈ entrypointActions ReadyOutcome.readyWithin ∧
    (entrypointActions ReadyOutcome.readyWithin).indexOf (Action.waitReady 120) <
      (entrypointActions ReadyOutcome.readyWithin).indexOf
        Action.startTrackHandlers := by
  decide

/-- Claim C10 (confirmed).  The failure rollback pops the last history
entry exactly when that entry is a user turn: when the history is empty or
ends with an assistant turn it is left unchanged, so the rollback never
removes an assistant turn and never removes more than one entry (the
length drops by at most one). -/
theorem c10_rollback_only_user (l : History) :
    rollbackUser l = (if endsWithUser l = true then l.dropLast else l) ∧
    l.length ≤ (rollbackUser l).length + 1 ∧
    rollbackUser ([] : History) = [] := by
  refine ⟨?_, ?_, rfl⟩
  · unfold rollbackUser endsWithUser
    cases l.getLast? with
    | none => simp
    | some m =>
        by_cases hm : m.role = Role.user
        · simp [hm]
        · simp [hm]
  · unfold rollbackUser
    split
    · split
      · rw [List.length_dropLast]
        omega
      · omega
    · omega

end VoiceAgent
